import Mathlib

/-!
Verification development for the ARO-RP cluster-lifecycle orchestration core.

The sampled sources are `pkg/cluster/install_test.go` (tests of the manager's
`runSteps`, `updateProvisionedBy` and installation-time metrics) and
`cmd/rp/rp.go` (process startup).  The implementations of `steps.Run`,
`steps.Action`, the manager's diagnostics gathering and the OpenShiftClusters
database are exercised by those tests but their files are not among the
sampled sources, so they are modelled here from the specification, kept
consistent with the exact log messages, metric values and database behaviour
that `install_test.go` asserts.
-/

namespace ARO

/-- Log levels used by the logrus entries the tests assert on. -/
inductive Level where
  | info
  | error
deriving DecidableEq, Repr

/-- A structured log entry: level plus message, the two fields the tests read. -/
structure LogEntry where
  level : Level
  msg : String
deriving DecidableEq, Repr

/-- Modelled from the spec: a Go function value used as a step body.
`symbolPath` is the function's runtime symbol name as obtained by reflection
(`runtime.FuncForPC`), e.g. `github.com/Azure/ARO-RP/pkg/cluster.failingFunc`;
`duration` is the whole seconds of wall clock the call consumes; `result` is
`none` on success or `some e` when the call returns an error with message `e`. -/
structure GoFunc where
  symbolPath : String
  duration : Nat
  result : Option String
deriving DecidableEq, Repr

/-- A step of the pipeline as the step runner sees it: a display name, the
wall-clock seconds it consumes, and its outcome. -/
structure Step where
  name : String
  duration : Nat
  result : Option String
deriving DecidableEq, Repr

/-- Modelled from the spec: `steps.Action` wraps a Go function into a step.
Its display name is the word `Action` followed by the function's
reflection-derived symbol path, exactly the names the sampled test asserts
(`running step [Action github.com/Azure/ARO-RP/pkg/cluster.failingFunc]`). -/
def Action (f : GoFunc) : Step :=
  { name := "Action " ++ f.symbolPath, duration := f.duration, result := f.result }

/-- The informational entry the step runner logs immediately before a step. -/
def startEntry (s : Step) : LogEntry :=
  { level := Level.info, msg := "running step [" ++ s.name ++ "]" }

/-- The error entry the step runner logs when a step fails. -/
def failEntry (s : Step) (e : String) : LogEntry :=
  { level := Level.error, msg := "step [" ++ s.name ++ "] encountered error: " ++ e }

/-- Outcome of one diagnostics probe's fetch against the target cluster:
either the fetch itself failed with an error message, or it succeeded and
produced data (`none` models an absent resource, which serializes as `null`). -/
inductive ProbeResult where
  | fetchError (msg : String)
  | data (json : Option String)
deriving DecidableEq, Repr

/-- One diagnostics probe: its display name (the `…-fm` method-value name the
test matches) and the result its fetch produces. -/
structure Probe where
  friendlyName : String
  result : ProbeResult
deriving DecidableEq, Repr

/-- Modelled from the spec: the log entry one probe contributes during failure
diagnostics.  A failed fetch is logged at error level (and, as the sampled
test's second case shows, contributes no informational entry); a successful
fetch is logged at informational level as `<name>: <json>`, with absent data
serialized as `null`. -/
def probeLog (p : Probe) : LogEntry :=
  match p.result with
  | ProbeResult.fetchError e => { level := Level.error, msg := e }
  | ProbeResult.data j =>
      { level := Level.info, msg := p.friendlyName ++ ": " ++ j.getD "null" }

/-- Metrics emitter state as observed through the test's fake: the last topic
and gauge value written, plus how many times `EmitGauge` was invoked. -/
structure MetricsEmitter where
  topic : String
  value : Nat
  calls : Nat
deriving DecidableEq, Repr

/-- The Go zero value of the fake emitter: empty topic, zero value, no calls. -/
def MetricsEmitter.initial : MetricsEmitter :=
  { topic := "", value := 0, calls := 0 }

/-- The manager fields `runSteps` consults: the four diagnostics probes (in
their fixed order: cluster version, nodes, cluster operators, ingress
controllers) and whether a metrics emitter is configured (`me != nil`). -/
structure Manager where
  probes : List Probe
  me : Bool
deriving DecidableEq, Repr

/-- Modelled from the spec: `steps.Run` executes the steps strictly in
sequence, logging an informational entry before each step; on the first error
it logs an error entry and stops, returning that error unwrapped.  Returns the
log produced, the elapsed whole seconds, and the error (if any). -/
def runStepsList : List Step → List LogEntry × Nat × Option String
  | [] => ([], 0, none)
  | s :: rest =>
    match s.result with
    | some e => ([startEntry s, failEntry s e], s.duration, some e)
    | none =>
        let r := runStepsList rest
        (startEntry s :: r.1, s.duration + r.2.1, r.2.2)

/-- Result of one `runSteps` call: the log it produced, the state of the
metrics emitter afterwards, and the returned error. -/
structure RunOutcome where
  log : List LogEntry
  emitter : MetricsEmitter
  err : Option String
deriving DecidableEq, Repr

/-- The fixed metric topic of the success path. -/
def installTimeTopic : String := "backend.openshiftcluster.installtime"

/-- Modelled from the spec: `(*manager).runSteps` runs the pipeline; on any
step error it gathers the failure diagnostics (each probe contributing its
`probeLog` entry, in the fixed probe order) and returns the original error
with the emitter untouched; on success, if a metrics emitter is configured it
emits exactly one gauge with the fixed topic and the elapsed whole seconds. -/
def Manager.runSteps (m : Manager) (ss : List Step) : RunOutcome :=
  let r := runStepsList ss
  match r.2.2 with
  | some e =>
      { log := r.1 ++ m.probes.map probeLog
        emitter := MetricsEmitter.initial
        err := some e }
  | none =>
      if m.me then
        { log := r.1
          emitter := { topic := installTimeTopic, value := r.2.1, calls := 1 }
          err := none }
      else
        { log := r.1, emitter := MetricsEmitter.initial, err := none }

/-- The failing step body of the sampled test: returns the error `oh no!`. -/
def failingFunc : GoFunc :=
  { symbolPath := "github.com/Azure/ARO-RP/pkg/cluster.failingFunc"
    duration := 0
    result := some "oh no!" }

/-- The succeeding step body of the sampled test: sleeps one second, no error. -/
def normalFunc : GoFunc :=
  { symbolPath := "github.com/Azure/ARO-RP/pkg/cluster.normalFunc"
    duration := 1
    result := none }

/-- A function with the same observable behaviour as `failingFunc` but a
different runtime symbol, used to show the displayed step name depends only on
the reflection data. -/
def failingFuncRenamed : GoFunc :=
  { symbolPath := "github.com/Azure/ARO-RP/pkg/cluster.otherFailingFunc"
    duration := 0
    result := some "oh no!" }

/-- The four probes of the sampled test's second case: the cluster-version
fetch fails with a not-found error, while the node, cluster-operator and
ingress-controller lists succeed with no items (absent resources). -/
def probesAbsent : List Probe :=
  [ { friendlyName := "github.com/Azure/ARO-RP/pkg/cluster.(*manager).logClusterVersion-fm"
      result := ProbeResult.fetchError "clusterversions.config.openshift.io \"version\" not found" }
  , { friendlyName := "github.com/Azure/ARO-RP/pkg/cluster.(*manager).logNodes-fm"
      result := ProbeResult.data none }
  , { friendlyName := "github.com/Azure/ARO-RP/pkg/cluster.(*manager).logClusterOperators-fm"
      result := ProbeResult.data none }
  , { friendlyName := "github.com/Azure/ARO-RP/pkg/cluster.(*manager).logIngressControllers-fm"
      result := ProbeResult.data none } ]

/-- The manager of the sampled test's second case (no metrics emitter). -/
def mgrAbsent : Manager :=
  { probes := probesAbsent, me := false }

/-- The document lifecycle states of the API. -/
inductive ProvisioningState where
  | creating
  | updating
  | deleting
  | succeeded
  | failed
deriving DecidableEq, Repr

/-- An OpenShift cluster document as the lease queue and database see it:
case-normalized `key`, the original resource `id`, the opaque concurrency
`token` (etag), the lifecycle state, the build stamp `provisionedBy`, and the
lease fields (`leaseOwner` is `none` while unclaimed; `leaseExpiry` is the
absolute expiry instant in seconds). -/
structure OcpDoc where
  key : String
  id : String
  token : Nat
  provisioningState : ProvisioningState
  provisionedBy : String
  leaseOwner : Option String
  leaseExpiry : Nat
deriving DecidableEq, Repr

/-- Keys are case-normalized by lowercasing each character, as the sampled
test does with `strings.ToLower` before storing and reading. -/
def normalizeKey (s : String) : String := String.mk (s.data.map Char.toLower)

/-- Modelled from the spec: the fixed lease duration in seconds granted by a
successful dequeue; any positive value supports the claims. -/
def leaseTTL : Nat := 60

/-- Modelled from the spec: a document is eligible for dequeue when it carries
no lease or its lease has expired. -/
def eligible (now : Nat) (d : OcpDoc) : Bool :=
  d.leaseOwner.isNone || decide (d.leaseExpiry ≤ now)

/-- Outcome of one dequeue attempt: the claimed document, or the transient
`ErrConflict` (lost the conditional-write race), or `ErrNotFound` (no eligible
document). -/
inductive DequeueResult where
  | success (d : OcpDoc)
  | conflict
  | notFound
deriving DecidableEq, Repr

/-- Whether a dequeue attempt claimed the document. -/
def DequeueResult.isSuccess : DequeueResult → Bool
  | DequeueResult.success _ => true
  | _ => false

/-- Modelled from the spec: one atomic dequeue attempt by worker `owner`
holding the concurrency token `readToken` it last read.  If the document is
not eligible the attempt reports `ErrNotFound`; if the CAS precondition fails
(the token moved since the read) it reports `ErrConflict`; otherwise the
conditional write installs the lease fields, bumps the token, and returns the
claimed document. -/
def tryClaim (now : Nat) (owner : String) (readToken : Nat) (d : OcpDoc) :
    DequeueResult × OcpDoc :=
  if eligible now d then
    if d.token = readToken then
      let d' := { d with leaseOwner := some owner
                         leaseExpiry := now + leaseTTL
                         token := d.token + 1 }
      (DequeueResult.success d', d')
    else (DequeueResult.conflict, d)
  else (DequeueResult.notFound, d)

/-- Modelled from the spec: a race of several workers' dequeue attempts
against one document, all holding the token `t0` they read from the shared
initial snapshot; the store serializes the conditional writes in list order. -/
def race (now : Nat) (t0 : Nat) (d : OcpDoc) : List String → List DequeueResult × OcpDoc
  | [] => ([], d)
  | w :: ws =>
    let r := tryClaim now w t0 d
    let rest := race now t0 r.2 ws
    (r.1 :: rest.1, rest.2)

/-- Errors of the document database. -/
inductive DbError where
  | notFound
  | conflict
deriving DecidableEq, Repr

/-- Modelled from the spec: the document store holds a list of documents. -/
structure Database where
  docs : List OcpDoc
deriving DecidableEq, Repr

/-- Modelled from the spec: point read by normalized key. -/
def Database.get (db : Database) (key : String) : Option OcpDoc :=
  db.docs.find? (fun d => d.key == key)

/-- Modelled from the spec: conditional update.  The write fails with
`ErrNotFound` if no document with the key exists and with `ErrConflict` if the
stored concurrency token has moved since the caller's read; on success the
stored document is replaced and the returned document carries a new token. -/
def Database.write (db : Database) (d : OcpDoc) : Except DbError (OcpDoc × Database) :=
  match db.get d.key with
  | none => Except.error DbError.notFound
  | some cur =>
      if cur.token = d.token then
        let d' := { d with token := d.token + 1 }
        Except.ok (d', { docs := db.docs.map (fun x => if x.key == d.key then d' else x) })
      else Except.error DbError.conflict

/-- Modelled from the spec: `(*manager).updateProvisionedBy` stamps the claimed
document with the orchestrator's build commit and persists it through the
conditional write. -/
def updateProvisionedBy (gitCommit : String) (db : Database) (doc : OcpDoc) :
    Except DbError (OcpDoc × Database) :=
  db.write { doc with provisionedBy := gitCommit }

/-- The observable state of a document: everything except the opaque
concurrency token, which changes on every write by design. -/
structure Observable where
  key : String
  id : String
  provisioningState : ProvisioningState
  provisionedBy : String
  leaseOwner : Option String
  leaseExpiry : Nat
deriving DecidableEq, Repr

/-- Project a document onto its observable state. -/
def OcpDoc.observable (d : OcpDoc) : Observable :=
  { key := d.key, id := d.id, provisioningState := d.provisioningState
    provisionedBy := d.provisionedBy, leaseOwner := d.leaseOwner
    leaseExpiry := d.leaseExpiry }

/-- A freshly enqueued, unleased document, as the sampled test's fixture
creates it (state Creating, no lease, no build stamp yet). -/
def freshDoc : OcpDoc :=
  { key := "/subscriptions/00000000-0000-0000-0000-000000000000/resourcegroups/resourcegroup/providers/microsoft.redhatopenshift/openshiftclusters/resourcename1"
    id := "/subscriptions/00000000-0000-0000-0000-000000000000/resourcegroups/resourceGroup/providers/Microsoft.RedHatOpenShift/openShiftClusters/resourceName1"
    token := 0
    provisioningState := ProvisioningState.creating
    provisionedBy := ""
    leaseOwner := none
    leaseExpiry := 0 }

/-- The keys `cmd/rp/rp.go` checks with `os.LookupEnv` before doing anything
else, in source order. -/
def requiredEnvKeys : List String := ["LOCATION", "RESOURCEGROUP"]

/-- `os.Getenv`: the variable's value, or the empty string when it is unset. -/
def getenv (envv : String → Option String) (k : String) : String :=
  (envv k).getD ""

/-- Results of the external collaborator calls `run` makes during startup, in
source order: each is `none` on success or `some e` when the call fails with
error message `e`.  The collaborators themselves (environment construction,
CosmosDB discovery, database client, database, DNS, authorizer, frontend
construction) are out of scope; only their success or failure steers `run`. -/
structure Collaborators where
  newEnvErr : Option String
  cosmosErr : Option String
  dbClientErr : Option String
  openShiftClustersErr : Option String
  dnsErr : Option String
  authorizerErr : Option String
  frontendErr : Option String
deriving DecidableEq, Repr

/-- How a call to `run` ends: it returns an error to `main`, or it reaches the
final empty `select {}` and blocks forever. -/
inductive RunOutcomeRp where
  | returned (err : String)
  | blockedForever
deriving DecidableEq, Repr

/-- The observable effects of one `run` call: its outcome, the subscription id
passed to environment construction (`none` when `env.NewEnv` was never
called), which collaborators got started, and the shutdown bookkeeping. -/
structure RunResult where
  outcome : RunOutcomeRp
  newEnvSubscriptionId : Option String
  dbClientConstructed : Bool
  backendStarted : Bool
  frontendListening : Bool
  sigtermReceived : Bool
  stopClosed : Bool
deriving DecidableEq, Repr

/-- `run` from `cmd/rp/rp.go`, over an environment `envv` (as a partial map
from variable names to values), the collaborator call results `c`, and whether
a SIGTERM eventually arrives.  It first returns `environment variable "<key>"
unset` for the first required key that is absent; then reads
`AZURE_SUBSCRIPTION_ID` with `os.Getenv` (no presence check) and constructs
the environment; then CosmosDB credentials, the database client, the database,
DNS and the authorizer, returning any error; then starts the backend worker
goroutine, constructs the frontend (returning its error if it fails — the
backend goroutine is already running at that point), starts the frontend,
waits for SIGTERM, closes the `stop` channel, and blocks forever on the empty
`select {}`. -/
def run (envv : String → Option String) (c : Collaborators) (sigterm : Bool) :
    RunResult :=
  match requiredEnvKeys.find? (fun k => (envv k).isNone) with
  | some k =>
      { outcome := RunOutcomeRp.returned ("environment variable \"" ++ k ++ "\" unset")
        newEnvSubscriptionId := none, dbClientConstructed := false
        backendStarted := false, frontendListening := false
        sigtermReceived := false, stopClosed := false }
  | none =>
    let subId := getenv envv "AZURE_SUBSCRIPTION_ID"
    match c.newEnvErr with
    | some e =>
        { outcome := RunOutcomeRp.returned e, newEnvSubscriptionId := some subId
          dbClientConstructed := false, backendStarted := false
          frontendListening := false, sigtermReceived := false, stopClosed := false }
    | none =>
    match c.cosmosErr with
    | some e =>
        { outcome := RunOutcomeRp.returned e, newEnvSubscriptionId := some subId
          dbClientConstructed := false, backendStarted := false
          frontendListening := false, sigtermReceived := false, stopClosed := false }
    | none =>
    match c.dbClientErr with
    | some e =>
        { outcome := RunOutcomeRp.returned e, newEnvSubscriptionId := some subId
          dbClientConstructed := false, backendStarted := false
          frontendListening := false, sigtermReceived := false, stopClosed := false }
    | none =>
    match c.openShiftClustersErr with
    | some e =>
        { outcome := RunOutcomeRp.returned e, newEnvSubscriptionId := some subId
          dbClientConstructed := true, backendStarted := false
          frontendListening := false, sigtermReceived := false, stopClosed := false }
    | none =>
    match c.dnsErr with
    | some e =>
        { outcome := RunOutcomeRp.returned e, newEnvSubscriptionId := some subId
          dbClientConstructed := true, backendStarted := false
          frontendListening := false, sigtermReceived := false, stopClosed := false }
    | none =>
    match c.authorizerErr with
    | some e =>
        { outcome := RunOutcomeRp.returned e, newEnvSubscriptionId := some subId
          dbClientConstructed := true, backendStarted := false
          frontendListening := false, sigtermReceived := false, stopClosed := false }
    | none =>
    match c.frontendErr with
    | some e =>
        { outcome := RunOutcomeRp.returned e, newEnvSubscriptionId := some subId
          dbClientConstructed := true, backendStarted := true
          frontendListening := false, sigtermReceived := false, stopClosed := false }
    | none =>
        { outcome := RunOutcomeRp.blockedForever, newEnvSubscriptionId := some subId
          dbClientConstructed := true, backendStarted := true
          frontendListening := true, sigtermReceived := sigterm
          stopClosed := sigterm }

/-- How the whole process ends as seen from `main`: a fatal log-and-exit on a
`run` error, or running until killed. -/
inductive ProcessOutcome where
  | fatalExit (msg : String)
  | runningForever
deriving DecidableEq, Repr

/-- `main` from `cmd/rp/rp.go`: calls `run` and aborts the process fatally
(`log.Fatal`) on any error it returns. -/
def mainRun (envv : String → Option String) (c : Collaborators) (sigterm : Bool) :
    ProcessOutcome :=
  match (run envv c sigterm).outcome with
  | RunOutcomeRp.returned e => ProcessOutcome.fatalExit e
  | RunOutcomeRp.blockedForever => ProcessOutcome.runningForever

/-- A collaborator record where every startup call succeeds. -/
def allOk : Collaborators :=
  { newEnvErr := none, cosmosErr := none, dbClientErr := none
    openShiftClustersErr := none, dnsErr := none, authorizerErr := none
    frontendErr := none }

/-- An environment with every variable set to `v`. -/
def envFull : String → Option String := fun _ => some "v"

/-- A collaborator record where only the frontend construction fails. -/
def frontendFails : Collaborators :=
  { allOk with frontendErr := some "listen failed" }

/-- An environment where only `LOCATION` is unset. -/
def envNoLocation : String → Option String :=
  fun k => if k = "LOCATION" then none else some "v"

/-- An environment where only `AZURE_SUBSCRIPTION_ID` is unset. -/
def envNoSubscription : String → Option String :=
  fun k => if k = "AZURE_SUBSCRIPTION_ID" then none else some "v"

theorem runStepsList_ok_append (pre rest : List Step)
    (hpre : ∀ p ∈ pre, p.result = none) :
    runStepsList (pre ++ rest) =
      (pre.map startEntry ++ (runStepsList rest).1,
       (pre.map Step.duration).sum + (runStepsList rest).2.1,
       (runStepsList rest).2.2) := by
  induction pre with
  | nil => simp
  | cons a l ih =>
      have ha : a.result = none := hpre a (List.mem_cons_self a l)
      have ih' := ih (fun p hp => hpre p (List.mem_cons_of_mem a hp))
      simp [runStepsList, ha, ih', Nat.add_assoc]

theorem runStepsList_all_ok (ss : List Step) (h : ∀ p ∈ ss, p.result = none) :
    runStepsList ss = (ss.map startEntry, (ss.map Step.duration).sum, none) := by
  have := runStepsList_ok_append ss [] h
  simpa [runStepsList] using this

theorem runStepsList_err_of_mem (ss : List Step)
    (h : ∃ s ∈ ss, s.result ≠ none) :
    (runStepsList ss).2.2 ≠ none := by
  induction ss with
  | nil => simp at h
  | cons a l ih =>
      rcases h with ⟨s, hs, hres⟩
      rcases List.mem_cons.mp hs with rfl | hmem
      · cases ha : s.result with
        | none => exact absurd ha hres
        | some e => simp [runStepsList, ha]
      · cases ha : a.result with
        | none => simpa [runStepsList, ha] using ih ⟨s, hmem, hres⟩
        | some e => simp [runStepsList, ha]

theorem sum_le_sum_forall₂ {l₁ l₂ : List Nat} (h : List.Forall₂ (· ≤ ·) l₁ l₂) :
    l₁.sum ≤ l₂.sum := by
  induction h with
  | nil => simp
  | cons hab _ ih => simpa using Nat.add_le_add hab ih

/-- Claim C1: for every finite step sequence, if some step fails then no step
after it executes (the run's log records exactly the preceding steps, the
failing step's start and error entries, and the diagnostics), and `runSteps`
returns exactly that step's error, unwrapped and unmodified. -/
theorem c1_fail_fast (m : Manager) (pre : List Step) (s : Step) (post : List Step)
    (e : String) (hpre : ∀ p ∈ pre, p.result = none) (hs : s.result = some e) :
    (m.runSteps (pre ++ s :: post)).err = some e ∧
    (m.runSteps (pre ++ s :: post)).log =
      pre.map startEntry ++ [startEntry s, failEntry s e] ++ m.probes.map probeLog := by
  have hrun : runStepsList (s :: post) =
      ([startEntry s, failEntry s e], s.duration, some e) := by
    simp [runStepsList, hs]
  have h := runStepsList_ok_append pre (s :: post) hpre
  rw [hrun] at h
  constructor <;> simp [Manager.runSteps, h]

/-- Witness for C1 at the sampled test's input: a single `Action failingFunc`
step returning the error `oh no!`. -/
theorem c1_fail_fast_witness :
    (mgrAbsent.runSteps ([] ++ Action failingFunc :: [])).err = some "oh no!" ∧
    (mgrAbsent.runSteps ([] ++ Action failingFunc :: [])).log =
      [].map startEntry ++
        [startEntry (Action failingFunc), failEntry (Action failingFunc) "oh no!"] ++
        mgrAbsent.probes.map probeLog :=
  c1_fail_fast mgrAbsent [] (Action failingFunc) [] "oh no!" (by simp) rfl

/-- Claim C6: before every executed step the run logs an informational entry
with message exactly `running step [<stepName>]`, and when a step fails it
logs an error entry with message exactly
`step [<stepName>] encountered error: <cause>`. -/
theorem c6_log_messages (m : Manager) (ss : List Step) :
    ((∀ p ∈ ss, p.result = none) →
      (m.runSteps ss).log = ss.map (fun t =>
        { level := Level.info, msg := "running step [" ++ t.name ++ "]" })) ∧
    (∀ pre s post e, ss = pre ++ s :: post → (∀ p ∈ pre, p.result = none) →
      s.result = some e →
      (m.runSteps ss).log =
        pre.map (fun t => { level := Level.info, msg := "running step [" ++ t.name ++ "]" }) ++
        [{ level := Level.info, msg := "running step [" ++ s.name ++ "]" },
         { level := Level.error, msg := "step [" ++ s.name ++ "] encountered error: " ++ e }] ++
        m.probes.map probeLog) := by
  constructor
  · intro h
    have := runStepsList_all_ok ss h
    simp [Manager.runSteps, this]
    cases m.me <;> simp [startEntry]
  · intro pre s post e hss hpre hs
    subst hss
    have hrun : runStepsList (s :: post) =
        ([startEntry s, failEntry s e], s.duration, some e) := by
      simp [runStepsList, hs]
    have h := runStepsList_ok_append pre (s :: post) hpre
    rw [hrun] at h
    simp [Manager.runSteps, h, startEntry, failEntry]

/-- Witness for C6 at the sampled test's input: the failing `Action` step
produces the two exact messages the test asserts. -/
theorem c6_log_messages_witness :
    (mgrAbsent.runSteps [Action failingFunc]).log =
      [].map (fun t : Step => { level := Level.info, msg := "running step [" ++ t.name ++ "]" }) ++
      [{ level := Level.info
         msg := "running step [Action github.com/Azure/ARO-RP/pkg/cluster.failingFunc]" },
       { level := Level.error
         msg := "step [Action github.com/Azure/ARO-RP/pkg/cluster.failingFunc] encountered error: oh no!" }] ++
      mgrAbsent.probes.map probeLog :=
  (c6_log_messages mgrAbsent [Action failingFunc]).2 [] (Action failingFunc) [] "oh no!"
    rfl (by simp) rfl

/-- Claim C2: with a metrics emitter configured, a failing run never invokes
the emitter (it stays at its zero defaults), and a fully successful run
invokes `EmitGauge` exactly once with the fixed topic
`backend.openshiftcluster.installtime` and a value at least the sum of the
steps' minimum intrinsic durations in whole seconds. -/
theorem c2_install_time_metrics (m : Manager) (ss : List Step) (mins : List Nat)
    (hme : m.me = true) :
    ((∃ s ∈ ss, s.result ≠ none) →
      (m.runSteps ss).emitter = MetricsEmitter.initial) ∧
    ((∀ s ∈ ss, s.result = none) →
      List.Forall₂ (· ≤ ·) mins (ss.map Step.duration) →
      (m.runSteps ss).emitter.calls = 1 ∧
      (m.runSteps ss).emitter.topic = "backend.openshiftcluster.installtime" ∧
      mins.sum ≤ (m.runSteps ss).emitter.value) := by
  constructor
  · intro h
    have herr := runStepsList_err_of_mem ss h
    cases he : (runStepsList ss).2.2 with
    | none => exact absurd he herr
    | some e => simp [Manager.runSteps, he]
  · intro hok hmins
    have := runStepsList_all_ok ss hok
    refine ⟨?_, ?_, ?_⟩ <;>
      simp [Manager.runSteps, this, hme, installTimeTopic, sum_le_sum_forall₂ hmins]

/-- Witness for C2 at the sampled test's inputs: the failing pair
`[normalFunc, failingFunc]` leaves the emitter at its defaults, and the
succeeding pair `[normalFunc, normalFunc]` (each step taking at least one
second) emits once with the fixed topic and a value at least `2`. -/
theorem c2_install_time_metrics_witness :
    (({ probes := [], me := true } : Manager).runSteps
        [Action normalFunc, Action failingFunc]).emitter = MetricsEmitter.initial ∧
    ((({ probes := [], me := true } : Manager).runSteps
        [Action normalFunc, Action normalFunc]).emitter.calls = 1 ∧
      (({ probes := [], me := true } : Manager).runSteps
        [Action normalFunc, Action normalFunc]).emitter.topic =
          "backend.openshiftcluster.installtime" ∧
      ([1, 1] : List Nat).sum ≤
        (({ probes := [], me := true } : Manager).runSteps
          [Action normalFunc, Action normalFunc]).emitter.value) :=
  ⟨(c2_install_time_metrics { probes := [], me := true }
      [Action normalFunc, Action failingFunc] [1, 1] rfl).1
      ⟨Action failingFunc, by simp, by simp [Action, failingFunc]⟩,
   (c2_install_time_metrics { probes := [], me := true }
      [Action normalFunc, Action normalFunc] [1, 1] rfl).2
      (by simp [Action, normalFunc])
      (by simp [Action, normalFunc])⟩

/-- Counterexample to C3 as stated: in the sampled test's second case (all
probe targets absent or unreachable) the diagnostics section of the log holds
only three informational entries for the four probes — the failed
cluster-version fetch contributes an error entry and no informational one. -/
theorem c3_counterexample :
    ((mgrAbsent.runSteps [Action failingFunc]).log.drop 2).countP
        (fun en => decide (en.level = Level.info)) = 3 ∧
    mgrAbsent.probes.length = 4 ∧
    (mgrAbsent.runSteps [Action failingFunc]).err = some "oh no!" := by
  refine ⟨?_, rfl, rfl⟩
  rfl

/-- Claim C3 as amended: on a failed run each diagnostics probe contributes
exactly one log entry — an error-level entry (and no informational one) when
its fetch failed, an informational entry with an explicit `null` marker when
the fetch succeeded but the resource was absent — and the error returned is
still the original step error. -/
theorem c3_diagnostics_on_failure (m : Manager) (f : GoFunc) (e : String)
    (hf : f.result = some e) :
    (m.runSteps [Action f]).err = some e ∧
    (m.runSteps [Action f]).log =
      startEntry (Action f) :: failEntry (Action f) e :: m.probes.map probeLog ∧
    (∀ p ∈ m.probes, ∀ msg, p.result = ProbeResult.fetchError msg →
      probeLog p = { level := Level.error, msg := msg }) ∧
    (∀ p ∈ m.probes, p.result = ProbeResult.data none →
      probeLog p = { level := Level.info, msg := p.friendlyName ++ ": null" }) := by
  have hrun : runStepsList [Action f] =
      ([startEntry (Action f), failEntry (Action f) e], (Action f).duration, some e) := by
    simp [runStepsList, Action, hf]
  refine ⟨?_, ?_, ?_, ?_⟩
  · simp [Manager.runSteps, hrun]
  · simp [Manager.runSteps, hrun]
  · intro p _ msg hp
    simp [probeLog, hp]
  · intro p _ hp
    have hlit : (": " : String) ++ "null" = ": null" := rfl
    simp [probeLog, hp, String.append_assoc, hlit]

/-- Witness for the amended C3 at the sampled test's second case. -/
theorem c3_diagnostics_on_failure_witness :
    (mgrAbsent.runSteps [Action failingFunc]).err = some "oh no!" ∧
    (mgrAbsent.runSteps [Action failingFunc]).log =
      startEntry (Action failingFunc) :: failEntry (Action failingFunc) "oh no!" ::
        mgrAbsent.probes.map probeLog ∧
    (∀ p ∈ mgrAbsent.probes, ∀ msg, p.result = ProbeResult.fetchError msg →
      probeLog p = { level := Level.error, msg := msg }) ∧
    (∀ p ∈ mgrAbsent.probes, p.result = ProbeResult.data none →
      probeLog p = { level := Level.info, msg := p.friendlyName ++ ": null" }) :=
  c3_diagnostics_on_failure mgrAbsent failingFunc "oh no!" rfl

/-- Counterexample to C5 as stated: two step bodies with identical observable
behaviour but different runtime symbols produce different displayed step
names, and the displayed name is exactly `Action ` followed by the function's
reflection-derived symbol path — no explicit name is supplied anywhere. -/
theorem c5_counterexample :
    (Action failingFunc).name ≠ (Action failingFuncRenamed).name ∧
    failingFunc.duration = failingFuncRenamed.duration ∧
    failingFunc.result = failingFuncRenamed.result ∧
    (Action failingFunc).name =
      "Action github.com/Azure/ARO-RP/pkg/cluster.failingFunc" := by
  refine ⟨?_, rfl, rfl, rfl⟩
  decide

/-- Claim C5 as amended: every step's displayed name in the
`running step [...]` log entry is derived at runtime from the step function's
identity: it is the word `Action` followed by the function's
reflection-derived symbol path. -/
theorem c5_reflection_naming (m : Manager) (f : GoFunc) :
    ((m.runSteps [Action f]).log.head?).map LogEntry.msg =
      some ("running step [Action " ++ f.symbolPath ++ "]") := by
  have hlit : ("running step [" : String) ++ "Action " = "running step [Action " := rfl
  have hname : "running step [" ++ (Action f).name ++ "]" =
      "running step [Action " ++ f.symbolPath ++ "]" := by
    simp [Action, ← String.append_assoc, hlit]
  cases hf : f.result with
  | none =>
      have hrun : runStepsList [Action f] =
          ([startEntry (Action f)], (Action f).duration, none) := by
        simp [runStepsList, Action, hf]
      cases hme : m.me <;>
        simp [Manager.runSteps, hrun, hme, startEntry, hname]
  | some e =>
      have hrun : runStepsList [Action f] =
          ([startEntry (Action f), failEntry (Action f) e], (Action f).duration, some e) := by
        simp [runStepsList, Action, hf]
      simp [Manager.runSteps, hrun, startEntry, hname]

theorem race_not_eligible (now t0 : Nat) (d : OcpDoc) (ws : List String)
    (h : eligible now d = false) :
    race now t0 d ws = (ws.map (fun _ => DequeueResult.notFound), d) := by
  induction ws with
  | nil => simp [race]
  | cons w ws ih => simp [race, tryClaim, h, ih]

/-- Claim C4: a dequeue succeeds only when no live (unexpired) lease exists on
the document, and when several dequeue attempts race for one eligible
document, exactly one caller obtains it with its lease fields populated while
every other caller receives `ErrConflict` or `ErrNotFound`. -/
theorem c4_lease_exclusion (now : Nat) (d0 : OcpDoc) (w : String) (ws : List String)
    (helig : eligible now d0 = true) :
    (∀ n o rt res, ∀ d d' : OcpDoc, tryClaim n o rt d = (res, d') →
      res.isSuccess = true → d.leaseOwner = none ∨ d.leaseExpiry ≤ n) ∧
    (race now d0.token d0 (w :: ws)).1.countP DequeueResult.isSuccess = 1 ∧
    (∃ d', (race now d0.token d0 (w :: ws)).1.head? = some (DequeueResult.success d') ∧
      d'.leaseOwner = some w ∧ d'.leaseExpiry = now + leaseTTL) ∧
    (∀ r ∈ (race now d0.token d0 (w :: ws)).1.tail,
      r = DequeueResult.conflict ∨ r = DequeueResult.notFound) := by
  have hclaim : tryClaim now w d0.token d0 =
      (DequeueResult.success { d0 with leaseOwner := some w
                                       leaseExpiry := now + leaseTTL
                                       token := d0.token + 1 },
       { d0 with leaseOwner := some w
                 leaseExpiry := now + leaseTTL
                 token := d0.token + 1 }) := by
    simp [tryClaim, helig]
  have hnotelig : eligible now { d0 with leaseOwner := some w
                                         leaseExpiry := now + leaseTTL
                                         token := d0.token + 1 } = false := by
    simp [eligible, leaseTTL]
  have hrest := race_not_eligible now d0.token
      { d0 with leaseOwner := some w
                leaseExpiry := now + leaseTTL
                token := d0.token + 1 } ws hnotelig
  refine ⟨?_, ?_, ?_, ?_⟩
  · intro n o rt res d d' htry hsucc
    by_cases hel : eligible n d
    · simp only [eligible, Bool.or_eq_true] at hel
      rcases hel with h1 | h1
      · exact Or.inl (Option.isNone_iff_eq_none.mp h1)
      · exact Or.inr (of_decide_eq_true h1)
    · exfalso
      rw [tryClaim, if_neg (by simp [hel])] at htry
      cases htry
      simp [DequeueResult.isSuccess] at hsucc
  · simp [race, hclaim, hrest, DequeueResult.isSuccess, List.countP_map]
  · exact ⟨{ d0 with leaseOwner := some w
                     leaseExpiry := now + leaseTTL
                     token := d0.token + 1 },
      by simp [race, hclaim], rfl, rfl⟩
  · intro r hr
    simp [race, hclaim, hrest] at hr
    exact Or.inr hr.2

/-- Witness for C4: two workers race for a fresh unleased document. -/
theorem c4_lease_exclusion_witness :
    (∀ n o rt res, ∀ d d' : OcpDoc, tryClaim n o rt d = (res, d') →
      res.isSuccess = true → d.leaseOwner = none ∨ d.leaseExpiry ≤ n) ∧
    (race 0 freshDoc.token freshDoc ["worker1", "worker2"]).1.countP
      DequeueResult.isSuccess = 1 ∧
    (∃ d', (race 0 freshDoc.token freshDoc ["worker1", "worker2"]).1.head? =
        some (DequeueResult.success d') ∧
      d'.leaseOwner = some "worker1" ∧ d'.leaseExpiry = 0 + leaseTTL) ∧
    (∀ r ∈ (race 0 freshDoc.token freshDoc ["worker1", "worker2"]).1.tail,
      r = DequeueResult.conflict ∨ r = DequeueResult.notFound) :=
  c4_lease_exclusion 0 freshDoc "worker1" ["worker2"] rfl

theorem find?_map_pred {α : Type} (f : α → α) (p : α → Bool) (l : List α)
    (hp : ∀ x, p (f x) = p x) :
    (l.map f).find? p = (l.find? p).map f := by
  induction l with
  | nil => simp
  | cons a l ih =>
      simp only [List.map_cons, List.find?_cons, hp a]
      cases h : p a <;> simp [ih]

theorem find_replace (l : List OcpDoc) (k key' : String) (d' : OcpDoc)
    (hk : d'.key = key') :
    (l.map (fun x => if x.key == key' then d' else x)).find? (fun x => x.key == k) =
      (l.find? (fun x => x.key == k)).map (fun x => if x.key == key' then d' else x) := by
  apply find?_map_pred
  intro x
  by_cases hx : x.key = key'
  · simp [hx, hk]
  · simp [hx]

theorem get_after_replace (db : Database) (key' : String) (d' : OcpDoc)
    (hk : d'.key = key') (k : String) :
    Database.get { docs := db.docs.map (fun x => if x.key == key' then d' else x) } k =
      (db.get k).map (fun x => if x.key == key' then d' else x) := by
  simpa [Database.get] using find_replace db.docs k key' d' hk

theorem write_ok (db : Database) (d cur : OcpDoc) (hget : db.get d.key = some cur)
    (htok : cur.token = d.token) :
    db.write d = Except.ok ({ d with token := d.token + 1 },
      { docs := db.docs.map (fun x =>
          if x.key == d.key then { d with token := d.token + 1 } else x) }) := by
  simp [Database.write, hget, htok]

/-- Claim C7: after `updateProvisionedBy` succeeds on a claimed document, a
`Get` by the document's normalized key returns a document whose
`provisionedBy` equals the orchestrator's build stamp, and re-applying the
same logical update succeeds and leaves the observable state of every
document unchanged (only the opaque concurrency token moves). -/
theorem c7_update_provisioned_by (gitCommit : String) (db : Database) (doc : OcpDoc)
    (hkey : doc.key = normalizeKey doc.id)
    (hget : db.get (normalizeKey doc.id) = some doc) :
    ∃ doc1 db1,
      updateProvisionedBy gitCommit db doc = Except.ok (doc1, db1) ∧
      db1.get (normalizeKey doc.id) = some doc1 ∧
      doc1.provisionedBy = gitCommit ∧
      ∃ doc2 db2,
        updateProvisionedBy gitCommit db1 doc1 = Except.ok (doc2, db2) ∧
        doc2.observable = doc1.observable ∧
        ∀ k, (db2.get k).map OcpDoc.observable = (db1.get k).map OcpDoc.observable := by
  rw [← hkey] at hget
  rw [← hkey]
  refine ⟨{ doc with provisionedBy := gitCommit, token := doc.token + 1 },
    { docs := db.docs.map (fun x => if x.key == doc.key then
        { doc with provisionedBy := gitCommit, token := doc.token + 1 } else x) },
    write_ok db { doc with provisionedBy := gitCommit } doc hget rfl, ?_, rfl, ?_⟩
  · rw [get_after_replace db doc.key
      { doc with provisionedBy := gitCommit, token := doc.token + 1 } rfl doc.key]
    rw [hget]
    simp
  · have hg1 : Database.get
        { docs := db.docs.map (fun x => if x.key == doc.key then
            { doc with provisionedBy := gitCommit, token := doc.token + 1 } else x) }
        doc.key =
        some { doc with provisionedBy := gitCommit, token := doc.token + 1 } := by
      rw [get_after_replace db doc.key
        { doc with provisionedBy := gitCommit, token := doc.token + 1 } rfl doc.key]
      rw [hget]
      simp
    refine ⟨{ doc with provisionedBy := gitCommit, token := doc.token + 1 + 1 },
      { docs := (db.docs.map (fun x => if x.key == doc.key then
          { doc with provisionedBy := gitCommit, token := doc.token + 1 } else x)).map
          (fun x => if x.key == doc.key then
            { doc with provisionedBy := gitCommit, token := doc.token + 1 + 1 } else x) },
      write_ok
        { docs := db.docs.map (fun x => if x.key == doc.key then
            { doc with provisionedBy := gitCommit, token := doc.token + 1 } else x) }
        { doc with provisionedBy := gitCommit, token := doc.token + 1 }
        { doc with provisionedBy := gitCommit, token := doc.token + 1 }
        hg1 rfl, rfl, ?_⟩
    intro k
    rw [get_after_replace
      { docs := db.docs.map (fun x => if x.key == doc.key then
          { doc with provisionedBy := gitCommit, token := doc.token + 1 } else x) }
      doc.key
      { doc with provisionedBy := gitCommit, token := doc.token + 1 + 1 } rfl k]
    simp only [Database.get] at hg1 ⊢
    cases hfk : (db.docs.map (fun x => if x.key == doc.key then
        { doc with provisionedBy := gitCommit, token := doc.token + 1 } else x)).find?
        (fun d => d.key == k) with
    | none => simp
    | some x =>
        have hpk : (x.key == k) = true :=
          @List.find?_some _ (fun d => d.key == k) x _ hfk
        have hxk : x.key = k := by simpa using hpk
        by_cases hxd : x.key = doc.key
        · have hkd : k = doc.key := by rw [← hxk, hxd]
          rw [hkd] at hfk
          rw [hfk] at hg1
          have hx1 : x = { doc with provisionedBy := gitCommit, token := doc.token + 1 } :=
            Option.some.inj hg1
          subst hx1
          simp [OcpDoc.observable]
        · simp [hxd]

/-- Witness for C7: the sampled test's fixture document in a one-document
database, updated with the build stamp. -/
theorem c7_update_provisioned_by_witness :
    ∃ doc1 db1,
      updateProvisionedBy "unknown" { docs := [freshDoc] } freshDoc = Except.ok (doc1, db1) ∧
      db1.get (normalizeKey freshDoc.id) = some doc1 ∧
      doc1.provisionedBy = "unknown" ∧
      ∃ doc2 db2,
        updateProvisionedBy "unknown" db1 doc1 = Except.ok (doc2, db2) ∧
        doc2.observable = doc1.observable ∧
        ∀ k, (db2.get k).map OcpDoc.observable = (db1.get k).map OcpDoc.observable :=
  c7_update_provisioned_by "unknown" { docs := [freshDoc] } freshDoc (by decide) (by decide)

/-- Claim C8: if `LOCATION` or `RESOURCEGROUP` is unset, `run` returns the
error `environment variable "<key>" unset` before constructing any database
client or starting the backend worker loop or the frontend, and `main` aborts
the process fatally with that error. -/
theorem c8_missing_required_setting (envv : String → Option String)
    (c : Collaborators) (sigterm : Bool)
    (h : envv "LOCATION" = none ∨ envv "RESOURCEGROUP" = none) :
    ∃ k, (k = "LOCATION" ∨ k = "RESOURCEGROUP") ∧ envv k = none ∧
      (run envv c sigterm).outcome =
        RunOutcomeRp.returned ("environment variable \"" ++ k ++ "\" unset") ∧
      (run envv c sigterm).newEnvSubscriptionId = none ∧
      (run envv c sigterm).dbClientConstructed = false ∧
      (run envv c sigterm).backendStarted = false ∧
      (run envv c sigterm).frontendListening = false ∧
      mainRun envv c sigterm =
        ProcessOutcome.fatalExit ("environment variable \"" ++ k ++ "\" unset") := by
  by_cases hl : envv "LOCATION" = none
  · refine ⟨"LOCATION", Or.inl rfl, hl, ?_⟩
    have hfind : requiredEnvKeys.find? (fun k => (envv k).isNone) = some "LOCATION" := by
      simp [requiredEnvKeys, List.find?, hl]
    simp [run, mainRun, hfind]
  · have hr : envv "RESOURCEGROUP" = none := h.resolve_left hl
    refine ⟨"RESOURCEGROUP", Or.inr rfl, hr, ?_⟩
    have hfind : requiredEnvKeys.find? (fun k => (envv k).isNone) =
        some "RESOURCEGROUP" := by
      rcases Option.ne_none_iff_exists'.mp hl with ⟨v, hv⟩
      simp [requiredEnvKeys, List.find?, hv, hr]
    simp [run, mainRun, hfind]

/-- Witness for C8: an environment in which only `LOCATION` is unset. -/
theorem c8_missing_required_setting_witness :
    ∃ k, (k = "LOCATION" ∨ k = "RESOURCEGROUP") ∧ envNoLocation k = none ∧
      (run envNoLocation allOk false).outcome =
        RunOutcomeRp.returned ("environment variable \"" ++ k ++ "\" unset") ∧
      (run envNoLocation allOk false).newEnvSubscriptionId = none ∧
      (run envNoLocation allOk false).dbClientConstructed = false ∧
      (run envNoLocation allOk false).backendStarted = false ∧
      (run envNoLocation allOk false).frontendListening = false ∧
      mainRun envNoLocation allOk false =
        ProcessOutcome.fatalExit ("environment variable \"" ++ k ++ "\" unset") :=
  c8_missing_required_setting envNoLocation allOk false (Or.inl (by simp [envNoLocation]))

/-- Counterexample to C9 as stated: when the frontend construction fails, `run`
terminates with a startup error even though the backend worker goroutine has
already started — so not every terminating execution of `run` returns before
the worker loop begins. -/
theorem c9_counterexample :
    (run envFull frontendFails true).outcome = RunOutcomeRp.returned "listen failed" ∧
    (run envFull frontendFails true).backendStarted = true := by
  constructor <;> rfl

/-- Claim C9 as amended: once the whole startup sequence (environment checks
and every collaborator construction, the frontend included) succeeds, `run`
never returns — on SIGTERM it closes the stop channel and then blocks forever
on the empty select — and every terminating execution of `run` returns a
startup error raised before the frontend was started and before any shutdown
was requested (though the frontend-construction failure happens after the
backend worker goroutine has started). -/
theorem c9_run_never_returns (envv : String → Option String) (c : Collaborators)
    (sigterm : Bool) :
    ((requiredEnvKeys.find? (fun k => (envv k).isNone) = none) →
      c.newEnvErr = none → c.cosmosErr = none → c.dbClientErr = none →
      c.openShiftClustersErr = none → c.dnsErr = none → c.authorizerErr = none →
      c.frontendErr = none →
      (run envv c sigterm).outcome = RunOutcomeRp.blockedForever ∧
      (run envv c sigterm).sigtermReceived = sigterm ∧
      (run envv c sigterm).stopClosed = sigterm) ∧
    (∀ e, (run envv c sigterm).outcome = RunOutcomeRp.returned e →
      (run envv c sigterm).frontendListening = false ∧
      (run envv c sigterm).stopClosed = false) := by
  constructor
  · intro hfind h1 h2 h3 h4 h5 h6 h7
    simp [run, hfind, h1, h2, h3, h4, h5, h6, h7]
  · intro e
    unfold run
    cases requiredEnvKeys.find? (fun k => (envv k).isNone) <;>
      cases c.newEnvErr <;> cases c.cosmosErr <;> cases c.dbClientErr <;>
      cases c.openShiftClustersErr <;> cases c.dnsErr <;> cases c.authorizerErr <;>
      cases c.frontendErr <;> simp

/-- Witness for the amended C9: a fully-set environment with every
collaborator succeeding and SIGTERM arriving. -/
theorem c9_run_never_returns_witness :
    (run envFull allOk true).outcome = RunOutcomeRp.blockedForever ∧
    (run envFull allOk true).sigtermReceived = true ∧
    (run envFull allOk true).stopClosed = true :=
  (c9_run_never_returns envFull allOk true).1 rfl rfl rfl rfl rfl rfl rfl rfl

/-- Claim C10: `run` checks only `LOCATION` and `RESOURCEGROUP` for presence;
with both set and `AZURE_SUBSCRIPTION_ID` unset, the missing-settings check
passes and the empty string is handed to environment construction. -/
theorem c10_subscription_id_unchecked (envv : String → Option String)
    (c : Collaborators) (sigterm : Bool) (l r : String)
    (hl : envv "LOCATION" = some l) (hr : envv "RESOURCEGROUP" = some r)
    (hs : envv "AZURE_SUBSCRIPTION_ID" = none) :
    requiredEnvKeys.find? (fun k => (envv k).isNone) = none ∧
    (run envv c sigterm).newEnvSubscriptionId = some "" := by
  have hfind : requiredEnvKeys.find? (fun k => (envv k).isNone) = none := by
    simp [requiredEnvKeys, List.find?, hl, hr]
  refine ⟨hfind, ?_⟩
  unfold run
  rw [hfind]
  cases c.newEnvErr <;> cases c.cosmosErr <;> cases c.dbClientErr <;>
    cases c.openShiftClustersErr <;> cases c.dnsErr <;> cases c.authorizerErr <;>
    cases c.frontendErr <;> simp [getenv, hs]

/-- Witness for C10: an environment in which only `AZURE_SUBSCRIPTION_ID` is
unset. -/
theorem c10_subscription_id_unchecked_witness :
    requiredEnvKeys.find? (fun k => (envNoSubscription k).isNone) = none ∧
    (run envNoSubscription allOk false).newEnvSubscriptionId = some "" :=
  c10_subscription_id_unchecked envNoSubscription allOk false "v" "v"
    (by simp [envNoSubscription]) (by simp [envNoSubscription])
    (by simp [envNoSubscription])
